import Mathlib

/-!
Shallow embedding of `src/cpu.rs` of the game-boy-DMG-emulator repository.

Rust `u8`/`u16` values are embedded as `Nat` with explicit `% 256` / `% 65536`
at the points where the source converts (`as u8`, `wrapping_add`, ...).
Rust panics (array index out of bounds, `copy_from_slice` length mismatch,
`panic!`, `todo!`) are embedded as `Except RtError` errors carrying the
information the panic reports.
-/

namespace GbDmg

/-- Panic conditions of the Rust source, as an explicit error type. -/
inductive RtError where
  | indexOutOfBounds (index len : Nat)
  | copyLenMismatch (dstLen srcLen : Nat)
  | unknownOpcode (opcode : Nat)
  | unknownRegisterCode (name : String)
  | todoUnimplemented (msg : String)
deriving DecidableEq

/-- Constant `ZERO_FLAG_BYTE_POSITION` from cpu.rs. -/
def ZERO_FLAG_BYTE_POSITION : Nat := 7

/-- Constant `SUBTRACT_FLAG_BYTE_POSITION` from cpu.rs. -/
def SUBTRACT_FLAG_BYTE_POSITION : Nat := 6

/-- Constant `HALF_CARRY_FLAG_BYTE_POSITION` from cpu.rs. -/
def HALF_CARRY_FLAG_BYTE_POSITION : Nat := 5

/-- Constant `CARRY_FLAG_BYTE_POSITION` from cpu.rs. -/
def CARRY_FLAG_BYTE_POSITION : Nat := 4

/-- Struct `FlagsRegister` from cpu.rs. -/
structure FlagsRegister where
  zero : Bool
  subtraction : Bool
  half_carry : Bool
  carry : Bool
deriving DecidableEq

/-- The codec direction `impl From<FlagsRegister> for u8`. -/
def FlagsRegister.toU8 (flag : FlagsRegister) : Nat :=
  ((cond flag.zero 1 0) <<< ZERO_FLAG_BYTE_POSITION) |||
  ((cond flag.subtraction 1 0) <<< SUBTRACT_FLAG_BYTE_POSITION) |||
  ((cond flag.half_carry 1 0) <<< HALF_CARRY_FLAG_BYTE_POSITION) |||
  ((cond flag.carry 1 0) <<< CARRY_FLAG_BYTE_POSITION)

/-- The codec direction `impl From<u8> for FlagsRegister`. -/
def FlagsRegister.ofU8 (byte : Nat) : FlagsRegister where
  zero := ((byte >>> ZERO_FLAG_BYTE_POSITION) &&& 1) != 0
  subtraction := ((byte >>> SUBTRACT_FLAG_BYTE_POSITION) &&& 1) != 0
  half_carry := ((byte >>> HALF_CARRY_FLAG_BYTE_POSITION) &&& 1) != 0
  carry := ((byte >>> CARRY_FLAG_BYTE_POSITION) &&& 1) != 0

/-- Struct `Registers` from cpu.rs: the Rust field is `registers: [u8; 8]`,
an array of exactly eight bytes; the embedding keeps the length observable
so that out-of-range indexing can be modelled. -/
structure Registers where
  registers : List Nat
deriving DecidableEq

/-- `Registers::new()`: eight zeroed registers. -/
def Registers.new : Registers := ⟨List.replicate 8 0⟩

/-- `Registers::get_register`: Rust array indexing `self.registers[register]`;
an out-of-range index panics. -/
def Registers.get_register (r : Registers) (register : Nat) : Except RtError Nat :=
  match r.registers[register]? with
  | some v => Except.ok v
  | none => Except.error (RtError.indexOutOfBounds register r.registers.length)

/-- `Registers::set_register`: Rust indexed assignment `self.registers[register] = value`;
an out-of-range index panics. -/
def Registers.set_register (r : Registers) (register value : Nat) : Except RtError Registers :=
  if register < r.registers.length then Except.ok ⟨r.registers.set register value⟩
  else Except.error (RtError.indexOutOfBounds register r.registers.length)

/-- `Registers::get_register_word`:
`self.registers[codes.0] as u16 + ((self.registers[codes.1] as u16) << 8)`. -/
def Registers.get_register_word (r : Registers) (codes : Nat × Nat) : Except RtError Nat := do
  let lo ← r.get_register codes.1
  let hi ← r.get_register codes.2
  Except.ok (lo + (hi <<< 8))

/-- `Registers::set_register_word`: `self.registers[codes.0] = value as u8;`
`self.registers[codes.1] = (value >> 8) as u8;` (the `as u8` casts are `% 256`). -/
def Registers.set_register_word (r : Registers) (codes : Nat × Nat) (value : Nat) :
    Except RtError Registers := do
  let r1 ← r.set_register codes.1 (value % 256)
  r1.set_register codes.2 ((value >>> 8) % 256)

/-- `Registers::get_flags`: `FlagsRegister::from(self.registers[0xF])`; note the
index `0xF` = 15 against the eight-element `registers` array. -/
def Registers.get_flags (r : Registers) : Except RtError FlagsRegister := do
  let b ← r.get_register 0xF
  Except.ok (FlagsRegister.ofU8 b)

/-- `Registers::set_flags`: builds the new `FlagsRegister` from the four
`Option<bool>` overrides (`unwrap_or` keeps the current flag) and stores its
encoding at index `0xF`. -/
def Registers.set_flags (r : Registers)
    (zero subtraction half_carry carry : Option Bool) : Except RtError Registers := do
  let c_flag ← r.get_flags
  let flags : FlagsRegister :=
    { zero := zero.getD c_flag.zero
      subtraction := subtraction.getD c_flag.subtraction
      half_carry := half_carry.getD c_flag.half_carry
      carry := carry.getD c_flag.carry }
  r.set_register 0xF flags.toU8

/-- The `codes` method of `impl ToRegisterCode for &str`. `to_lowercase` is not
modelled: every call site in the source passes an already-lowercase literal.
A name not in the table panics `"Unknown register code"`. -/
def strCodes (s : String) : Except RtError (Nat × Nat) :=
  if s = "af" then Except.ok (0, 1)
  else if s = "bc" then Except.ok (2, 3)
  else if s = "de" then Except.ok (4, 5)
  else if s = "hl" then Except.ok (6, 7)
  else Except.error (RtError.unknownRegisterCode s)

/-- The `code` method of `ToRegisterCode`: first component of `codes`. -/
def strCode (s : String) : Except RtError Nat := do
  let c ← strCodes s
  Except.ok c.1

/-- Struct `MemoryBus` from cpu.rs: `memory: [u8; 0xFFFF + 1]`. -/
structure MemoryBus where
  memory : List Nat
deriving DecidableEq

/-- `MemoryBus::new()`: 0x10000 zeroed bytes. -/
def MemoryBus.new : MemoryBus := ⟨List.replicate 0x10000 0⟩

/-- `MemoryBus::set_range`: `self.memory[start..start+len].copy_from_slice(values)`.
Slicing past the end of the array panics, then `copy_from_slice` panics when the
source length differs from the destination range length. -/
def MemoryBus.set_range (m : MemoryBus) (start len : Nat) (values : List Nat) :
    Except RtError MemoryBus :=
  if start + len ≤ m.memory.length then
    if values.length = len then
      Except.ok ⟨m.memory.take start ++ values ++ m.memory.drop (start + len)⟩
    else Except.error (RtError.copyLenMismatch len values.length)
  else Except.error (RtError.indexOutOfBounds (start + len) m.memory.length)

/-- A single-byte indexed store `self.ram.memory[addr] = value` (used by opcode
0x02); an out-of-range index panics. -/
def MemoryBus.write_byte (m : MemoryBus) (addr value : Nat) : Except RtError MemoryBus :=
  if addr < m.memory.length then Except.ok ⟨m.memory.set addr value⟩
  else Except.error (RtError.indexOutOfBounds addr m.memory.length)

/-- Struct `Cpu` from cpu.rs. -/
structure Cpu where
  registers : Registers
  sp : Nat
  pc : Nat
  ram : MemoryBus
  dump_registers_after : Option Nat
deriving DecidableEq

/-- `Cpu::new()`: all state zeroed, diagnostic dump disabled. -/
def Cpu.new : Cpu :=
  { registers := Registers.new
    sp := 0
    pc := 0
    ram := MemoryBus.new
    dump_registers_after := none }

/-- `Cpu::load_rom`: `let mut rom = [0; 0x3FFF + 1]; rom.copy_from_slice(&rom_in);`
panics unless `rom_in` has exactly 0x4000 bytes; on success the buffer equals
`rom_in` and is copied to addresses 0x0000..=0x3FFF. -/
def Cpu.load_rom (cpu : Cpu) (rom_in : List Nat) : Except RtError Cpu :=
  if rom_in.length = 0x3FFF + 1 then do
    let ram ← cpu.ram.set_range 0x0000 (0x3FFF + 1) rom_in
    Except.ok { cpu with ram := ram }
  else Except.error (RtError.copyLenMismatch (0x3FFF + 1) rom_in.length)

/-- `Cpu::fetch_byte`: reads `self.ram.memory[self.pc as usize]` (the byte at the
program counter, which still points at the opcode). -/
def Cpu.fetch_byte (cpu : Cpu) : Except RtError Nat :=
  match cpu.ram.memory[cpu.pc]? with
  | some byte => Except.ok byte
  | none => Except.error (RtError.indexOutOfBounds cpu.pc cpu.ram.memory.length)

/-- `Cpu::fetch_word`: `fetch_byte` plus `self.ram.memory[self.pc as usize + 1]`;
the index `pc as usize + 1` is computed in `usize`, so it does not wrap at
0xFFFF and can reach 0x10000. -/
def Cpu.fetch_word (cpu : Cpu) : Except RtError Nat := do
  let byte ← cpu.fetch_byte
  match cpu.ram.memory[cpu.pc + 1]? with
  | some hi => Except.ok (byte + (hi <<< 8))
  | none => Except.error (RtError.indexOutOfBounds (cpu.pc + 1) cpu.ram.memory.length)

/-- `Cpu::inc_reg_byte`: `value.overflowing_add(1)` on a `u8` gives the wrapped
result `(value + 1) % 256` and the full-byte carry-out; the source passes that
carry-out as the half-carry override of `set_flags` and leaves the carry flag
unchanged (`None`). -/
def Cpu.inc_reg_byte (cpu : Cpu) (register : Nat) : Except RtError Cpu := do
  let value ← cpu.registers.get_register register
  let result := (value + 1) % 256
  let carry := decide (256 ≤ value + 1)
  let regs ← cpu.registers.set_register register result
  let regs2 ← regs.set_flags (some (result == 0)) (some false) (some carry) none
  Except.ok { cpu with registers := regs2 }

/-- `Cpu::dec_reg_byte`: `value.overflowing_sub(1)` on a `u8` gives the wrapped
result `(value + 255) % 256` and the borrow-out (`value < 1`); the source passes
that borrow as the half-carry override of `set_flags` and leaves the carry flag
unchanged (`None`). -/
def Cpu.dec_reg_byte (cpu : Cpu) (register : Nat) : Except RtError Cpu := do
  let value ← cpu.registers.get_register register
  let result := (value + 255) % 256
  let carry := decide (value < 1)
  let regs ← cpu.registers.set_register register result
  let regs2 ← regs.set_flags (some (result == 0)) (some true) (some carry) none
  Except.ok { cpu with registers := regs2 }

/-- The `match opcode & 0xFF` dispatch of `Cpu::execute`, returning the mutated
CPU and the `increment` value of the matched arm. Opcode 0x08 assigns
`self.sp = (nn & 0xFF) as u16 + (nn as u16) << 8`, which by Rust operator
precedence is `((nn & 0xFF) + nn) << 8` in wrapping `u16` arithmetic; it writes
no memory. The fall-through arm panics `"Unknown opcode"` after printing the
opcode value (the program counter is not part of the report). -/
def Cpu.step_opcode (cpu : Cpu) (opcode : Nat) : Except RtError (Cpu × Nat) :=
  match opcode &&& 0xFF with
  | 0x00 => Except.ok (cpu, 1)
  | 0x01 => do
    let nn ← cpu.fetch_word
    let codes ← strCodes "bc"
    let regs ← cpu.registers.set_register_word codes nn
    Except.ok ({ cpu with registers := regs }, 3)
  | 0x02 => do
    let codes ← strCodes "bc"
    let v ← cpu.registers.get_register_word codes
    let a ← strCode "a"
    let av ← cpu.registers.get_register a
    let ram ← cpu.ram.write_byte v av
    Except.ok ({ cpu with ram := ram }, 1)
  | 0x03 => do
    let codes ← strCodes "bc"
    let v ← cpu.registers.get_register_word codes
    let codes2 ← strCodes "bc"
    let regs ← cpu.registers.set_register_word codes2 ((v + 1) % 65536)
    Except.ok ({ cpu with registers := regs }, 1)
  | 0x04 => do
    let b ← strCode "b"
    let cpu2 ← cpu.inc_reg_byte b
    Except.ok (cpu2, 1)
  | 0x05 => do
    let b ← strCode "b"
    let cpu2 ← cpu.dec_reg_byte b
    Except.ok (cpu2, 1)
  | 0x06 => do
    let v ← cpu.fetch_byte
    let b ← strCode "b"
    let regs ← cpu.registers.set_register b v
    Except.ok ({ cpu with registers := regs }, 2)
  | 0x07 => Except.error (RtError.todoUnimplemented "RLCA")
  | 0x08 => do
    let nn ← cpu.fetch_word
    Except.ok ({ cpu with sp := ((((nn &&& 0xFF) + nn) % 65536) <<< 8) % 65536 }, 3)
  | _ => Except.error (RtError.unknownOpcode opcode)

/-- `Cpu::execute`: reads the opcode at `pc`, dispatches, then performs
`self.sp = self.sp.wrapping_add(increment)` — the per-instruction length is
added to the stack pointer; the program counter is never changed. The optional
register dump only prints and mutates nothing. -/
def Cpu.execute (cpu : Cpu) : Except RtError Cpu := do
  let opcode ←
    match cpu.ram.memory[cpu.pc]? with
    | some b => Except.ok b
    | none => Except.error (RtError.indexOutOfBounds cpu.pc cpu.ram.memory.length)
  let step ← cpu.step_opcode opcode
  Except.ok { step.1 with sp := (step.1.sp + step.2) % 65536 }

/-! Concrete machine states used to instantiate the general theorems. -/

/-- A fresh machine whose memory holds `0x08 0x10` from address 0 and whose
stack pointer is 0xABCD. -/
def ldSpCpu : Cpu :=
  { Cpu.new with sp := 0xABCD, ram := ⟨0x08 :: 0x10 :: List.replicate 0xFFFE 0⟩ }

/-- A fresh machine whose memory holds opcode 0x02 at address 0. -/
def ldBcACpu : Cpu := { Cpu.new with ram := ⟨0x02 :: List.replicate 0xFFFF 0⟩ }

/-- A fresh machine whose register B (index 2) holds 0x0F. -/
def incBCpu : Cpu := { Cpu.new with registers := ⟨(List.replicate 8 0).set 2 0x0F⟩ }

/-- A fresh machine with the unimplemented opcode 0x09 at address 0 (pc = 0). -/
def unknownOpCpuA : Cpu := { Cpu.new with ram := ⟨0x09 :: List.replicate 0xFFFF 0⟩ }

/-- A machine with pc = 1 and the unimplemented opcode 0x09 at address 1. -/
def unknownOpCpuB : Cpu :=
  { Cpu.new with pc := 1, ram := ⟨0x00 :: 0x09 :: List.replicate 0xFFFE 0⟩ }

/-- A fresh machine with the unimplemented opcode 0xFF at address 0. -/
def unknownOpCpuC : Cpu := { Cpu.new with ram := ⟨0xFF :: List.replicate 0xFFFF 0⟩ }

/-- A fresh machine whose program counter sits at the top of the address space. -/
def topPcCpu : Cpu := { Cpu.new with pc := 0xFFFF }

/-! Helper lemmas. -/

/-- Reduction of `Except` bind on a success value. -/
@[simp] theorem ok_bind {ε α β : Type} (a : α) (f : α → Except ε β) :
    (Except.ok a >>= f : Except ε β) = f a := rfl

/-- Reduction of `Except` bind on an error value. -/
@[simp] theorem error_bind {ε α β : Type} (e : ε) (f : α → Except ε β) :
    (Except.error e >>= f : Except ε β) = Except.error e := rfl

/-- Masking with 0xFF is reduction mod 256. -/
theorem and_255_eq_mod (x : Nat) : x &&& 0xFF = x % 256 := by
  have h := Nat.and_pow_two_sub_one_eq_mod x 8
  norm_num at h
  exact h

/-- On any register file of the source's length 8, `set_flags` reads the
flags register at index 0xF = 15, which is out of bounds, so every call
fails with the corresponding panic. -/
theorem set_flags_always_oob (r : Registers) (zero subtraction half_carry carry : Option Bool)
    (hlen : r.registers.length = 8) :
    r.set_flags zero subtraction half_carry carry
      = Except.error (RtError.indexOutOfBounds 0xF 8) := by
  have h15 : r.registers[15]? = none := List.getElem?_eq_none (by omega)
  simp [Registers.set_flags, Registers.get_flags, Registers.get_register, h15, hlen]

/-- The fall-through arm of the opcode dispatch: every opcode byte above 0x08
produces the unrecognized-opcode fault, carrying only the opcode value. -/
theorem step_opcode_unknown (cpu : Cpu) (op : Nat) (hlt : op < 256) (hgt : 8 < op) :
    cpu.step_opcode op = Except.error (RtError.unknownOpcode op) := by
  have hmask : op &&& 0xFF = op := by
    rw [and_255_eq_mod]; exact Nat.mod_eq_of_lt hlt
  obtain ⟨k, rfl⟩ : ∃ k, op = k + 9 := ⟨op - 9, by omega⟩
  rw [Cpu.step_opcode, hmask]
  rfl

/-- Lifting of `step_opcode_unknown` through `execute`: when the byte at the
program counter is an opcode above 0x08, `execute` fails with the
unrecognized-opcode fault, whose payload is the opcode byte alone. -/
theorem execute_unknown_opcode (cpu : Cpu) (op : Nat)
    (h : cpu.ram.memory[cpu.pc]? = some op) (hlt : op < 256) (hgt : 8 < op) :
    cpu.execute = Except.error (RtError.unknownOpcode op) := by
  simp [Cpu.execute, h, step_opcode_unknown cpu op hlt hgt]

/-! Claim theorems. -/

/-- C1: the claim says that loading the 3-byte ROM `[0x01, 0x34, 0x12]` into a
fresh CPU succeeds and one execute step then sets BC to 0x1234 and advances the
program counter by 3. In the code, `load_rom` copies the input into a
0x4000-byte buffer with `copy_from_slice`, which panics whenever the input
length is not exactly 0x4000, so loading a 3-byte ROM already fails. -/
theorem c1_load_rom_three_bytes_panics :
    Cpu.new.load_rom [0x01, 0x34, 0x12]
      = Except.error (RtError.copyLenMismatch 0x4000 3) := by
  rfl

/-- C2: the claim says executing NOP (opcode 0x00) changes nothing but the
program counter, which advances by 1. In the code, one execute step on a state
whose byte at the program counter is 0x00 leaves the program counter (and all
registers, flags and memory) unchanged and instead adds the instruction length
1 to the stack pointer. -/
theorem c2_nop_increments_sp_not_pc (cpu : Cpu)
    (h : cpu.ram.memory[cpu.pc]? = some 0x00) :
    cpu.execute = Except.ok { cpu with sp := (cpu.sp + 1) % 65536 } := by
  simp [Cpu.execute, Cpu.step_opcode, h]

/-- C2 witness: executing the freshly created CPU (memory all zero, so the
opcode is 0x00) yields the same CPU with only the stack pointer bumped to 1. -/
theorem c2_nop_increments_sp_not_pc_witness :
    Cpu.new.ram.memory[Cpu.new.pc]? = some 0x00 ∧
    Cpu.new.execute = Except.ok { Cpu.new with sp := (Cpu.new.sp + 1) % 65536 } :=
  have h : Cpu.new.ram.memory[Cpu.new.pc]? = some 0x00 :=
    List.getElem?_replicate_of_lt (by decide)
  ⟨h, c2_nop_increments_sp_not_pc Cpu.new h⟩

/-- C3: the claim says the 8-bit increment sets half-carry exactly when the low
nibble of the pre-operation value was 0xF (and decrement when it was 0x0), so
INC B on B = 0x0F must give B = 0x10 with half-carry set. In the code,
`inc_reg_byte`/`dec_reg_byte` feed the full-byte carry of
`overflowing_add`/`overflowing_sub` into the half-carry override (which would be
false for 0x0F), and the flag write itself always faults: `set_flags` indexes
the 8-element register array at 0xF = 15. So for every register-file state of
the source's shape the operation fails with the out-of-bounds panic and no
flags are ever produced. -/
theorem c3_inc_dec_reg_byte_fault (cpu : Cpu) (register : Nat)
    (hlen : cpu.registers.registers.length = 8) (hreg : register < 8) :
    cpu.inc_reg_byte register = Except.error (RtError.indexOutOfBounds 0xF 8) ∧
    cpu.dec_reg_byte register = Except.error (RtError.indexOutOfBounds 0xF 8) := by
  obtain ⟨v, hv⟩ : ∃ v, cpu.registers.registers[register]? = some v :=
    ⟨_, List.getElem?_eq_getElem (by omega)⟩
  constructor <;>
    simp [Cpu.inc_reg_byte, Cpu.dec_reg_byte, Registers.get_register, hv,
      Registers.set_register, hlen, hreg, set_flags_always_oob]

/-- C3 witness: incrementing register B (index 2) holding 0x0F faults with the
flags-register out-of-bounds panic instead of producing B = 0x10 with
half-carry set. -/
theorem c3_inc_dec_reg_byte_fault_witness :
    incBCpu.inc_reg_byte 2 = Except.error (RtError.indexOutOfBounds 0xF 8) ∧
    incBCpu.dec_reg_byte 2 = Except.error (RtError.indexOutOfBounds 0xF 8) :=
  c3_inc_dec_reg_byte_fault incBCpu 2 (by decide) (by decide)

/-- C4: the claim says `set_flags` succeeds for every register-file state and
every subset of overrides, storing the overridden flags and preserving the
rest. In the code, `set_flags` reads the current flags from
`self.registers[0xF]`, but the register array has only 8 elements, so every
call panics with an index-out-of-bounds fault and no flags are ever written or
read back. -/
theorem c4_set_flags_contract_violation (r : Registers)
    (zero subtraction half_carry carry : Option Bool) (hlen : r.registers.length = 8) :
    r.set_flags zero subtraction half_carry carry
      = Except.error (RtError.indexOutOfBounds 0xF 8) :=
  set_flags_always_oob r zero subtraction half_carry carry hlen

/-- C4 witness: overriding just the zero flag on the fresh register file
faults with the out-of-bounds panic. -/
theorem c4_set_flags_contract_violation_witness :
    Registers.new.set_flags (some true) none none none
      = Except.error (RtError.indexOutOfBounds 0xF 8) :=
  c4_set_flags_contract_violation Registers.new (some true) none none none rfl

/-- C5: the claim says opcode 0x08 (LD (nn),SP) stores the stack pointer into
memory at the immediate address nn and leaves the stack pointer itself alone.
In the code, the 0x08 arm writes no memory at all: the resulting CPU keeps the
whole RAM (and pc and registers) of the input, and the stack pointer is
overwritten with `((nn & 0xFF) + nn) << 8` (Rust precedence puts the shift
last) plus the instruction length 3 — where nn is read by `fetch_word` from
the opcode byte itself and the byte after it, since pc still points at the
opcode. -/
theorem c5_ld_nn_sp_clobbers_sp (cpu : Cpu) (b2 : Nat)
    (h0 : cpu.ram.memory[cpu.pc]? = some 0x08)
    (h1 : cpu.ram.memory[cpu.pc + 1]? = some b2) :
    cpu.execute = Except.ok { cpu with
      sp := ((((((8 + (b2 <<< 8)) &&& 0xFF) + (8 + (b2 <<< 8))) % 65536) <<< 8) % 65536 + 3)
        % 65536 } := by
  simp [Cpu.execute, Cpu.step_opcode, Cpu.fetch_word, Cpu.fetch_byte, h0, h1]

/-- C5 witness: on the machine holding bytes `0x08 0x10` at address 0 with
sp = 0xABCD, the step leaves memory untouched and sets sp to 0x1003 (the old
stack pointer 0xABCD is destroyed, and no memory cell receives it). -/
theorem c5_ld_nn_sp_clobbers_sp_witness :
    ldSpCpu.execute = Except.ok { ldSpCpu with sp := 0x1003 } :=
  c5_ld_nn_sp_clobbers_sp ldSpCpu 0x10
    List.getElem?_cons_zero
    ((List.getElem?_cons_succ).trans List.getElem?_cons_zero)

/-- C6 counterexample: the claim says the unrecognized-opcode fault identifies
both the opcode byte and the program counter at which it occurred. Two machines
faulting on the same opcode byte 0x09 at different program counters (0 and 1)
produce exactly the same fault value, so the fault cannot identify the program
counter: the code reports only the opcode byte (the panic message and the
printed diagnostic contain no pc). -/
theorem c6_fault_does_not_identify_pc :
    unknownOpCpuA.pc = 0 ∧ unknownOpCpuB.pc = 1 ∧
    unknownOpCpuA.execute = Except.error (RtError.unknownOpcode 0x09) ∧
    unknownOpCpuB.execute = Except.error (RtError.unknownOpcode 0x09) ∧
    unknownOpCpuA.execute = unknownOpCpuB.execute := by
  have ha : unknownOpCpuA.execute = Except.error (RtError.unknownOpcode 0x09) :=
    execute_unknown_opcode unknownOpCpuA 0x09 List.getElem?_cons_zero (by norm_num) (by norm_num)
  have hb : unknownOpCpuB.execute = Except.error (RtError.unknownOpcode 0x09) :=
    execute_unknown_opcode unknownOpCpuB 0x09
      ((List.getElem?_cons_succ).trans List.getElem?_cons_zero) (by norm_num) (by norm_num)
  exact ⟨rfl, rfl, ha, hb, ha.trans hb.symm⟩

/-- C6 (amended): executing any opcode byte outside 0x00–0x08 signals the
fatal unrecognized-opcode fault identifying the offending opcode byte value
(but not the program counter), and no CPU state is mutated before the fault
(the step produces no successor state at all). -/
theorem c6_unknown_opcode_fault (cpu : Cpu) (op : Nat)
    (h : cpu.ram.memory[cpu.pc]? = some op) (hlt : op < 256) (hgt : 8 < op) :
    cpu.execute = Except.error (RtError.unknownOpcode op) :=
  execute_unknown_opcode cpu op h hlt hgt

/-- C6 witness: opcode 0xFF at address 0 faults with the unrecognized-opcode
condition carrying the byte 0xFF. -/
theorem c6_unknown_opcode_fault_witness :
    unknownOpCpuC.execute = Except.error (RtError.unknownOpcode 0xFF) :=
  c6_unknown_opcode_fault unknownOpCpuC 0xFF List.getElem?_cons_zero (by norm_num) (by norm_num)

/-- C7: the claim says opcode 0x02 (LD (BC),A) succeeds and writes the
accumulator to memory at the address in BC. In the code, the handler evaluates
`"a".code()`, and the register-name table of `ToRegisterCode` only knows the
pair names "af", "bc", "de", "hl", so the step always panics with
"Unknown register code" before any memory write. -/
theorem c7_ld_bc_a_panics_unknown_register (cpu : Cpu)
    (h : cpu.ram.memory[cpu.pc]? = some 0x02)
    (hlen : cpu.registers.registers.length = 8) :
    cpu.execute = Except.error (RtError.unknownRegisterCode "a") := by
  obtain ⟨v2, hv2⟩ : ∃ v, cpu.registers.registers[2]? = some v :=
    ⟨_, List.getElem?_eq_getElem (by omega)⟩
  obtain ⟨v3, hv3⟩ : ∃ v, cpu.registers.registers[3]? = some v :=
    ⟨_, List.getElem?_eq_getElem (by omega)⟩
  have hbc : strCodes "bc" = Except.ok (2, 3) := rfl
  have ha : strCode "a" = Except.error (RtError.unknownRegisterCode "a") := rfl
  simp [Cpu.execute, Cpu.step_opcode, h, hbc, ha,
    Registers.get_register_word, Registers.get_register, hv2, hv3]

/-- C7 witness: opcode 0x02 at address 0 of a fresh machine faults with the
unknown-register-code panic for "a". -/
theorem c7_ld_bc_a_panics_unknown_register_witness :
    ldBcACpu.execute = Except.error (RtError.unknownRegisterCode "a") :=
  c7_ld_bc_a_panics_unknown_register ldBcACpu List.getElem?_cons_zero rfl

set_option maxRecDepth 10000 in
/-- C8: the flags codec is an inverse pair on the four designated bits: for
every combination of the four boolean flags, decoding the encoded byte returns
the same flags, and for every byte value, re-encoding the decoded flags yields
the byte masked to its high nibble (the four low-order bits of an encoded byte
are always zero). -/
theorem c8_flags_codec_inverse_pair :
    (∀ zero subtraction half_carry carry : Bool,
      FlagsRegister.ofU8 (FlagsRegister.toU8 ⟨zero, subtraction, half_carry, carry⟩)
        = ⟨zero, subtraction, half_carry, carry⟩) ∧
    (∀ byte : Fin 256,
      FlagsRegister.toU8 (FlagsRegister.ofU8 byte.val) = byte.val &&& 0xF0) := by
  constructor
  · decide
  · decide

/-- C9: for all valid (distinct, in-range) register index pairs and every
16-bit value v, writing v with `set_register_word` succeeds, reading the pair
back gives exactly v, and the split is little-endian: the low-index register
holds `v &&& 0xFF` and the high-index register holds `(v >>> 8) &&& 0xFF`. -/
theorem c9_register_pair_roundtrip_little_endian (r : Registers) (lo hi v : Nat)
    (hlen : r.registers.length = 8) (hlo : lo < 8) (hhi : hi < 8) (hne : lo ≠ hi)
    (hv : v < 65536) :
    ∃ r2 : Registers,
      r.set_register_word (lo, hi) v = Except.ok r2 ∧
      r2.get_register_word (lo, hi) = Except.ok v ∧
      r2.registers[lo]? = some (v &&& 0xFF) ∧
      r2.registers[hi]? = some ((v >>> 8) &&& 0xFF) := by
  have hdiv : v >>> 8 = v / 256 := by
    rw [Nat.shiftRight_eq_div_pow]
  have e1 : ((r.registers.set lo (v % 256)).set hi ((v >>> 8) % 256))[lo]?
      = some (v % 256) := by
    rw [List.getElem?_set_ne (by omega), List.getElem?_set_eq_of_lt _ (by omega)]
  have e2 : ((r.registers.set lo (v % 256)).set hi ((v >>> 8) % 256))[hi]?
      = some ((v >>> 8) % 256) := by
    rw [List.getElem?_set_eq_of_lt _ (by simp [hlen]; omega)]
  refine ⟨⟨(r.registers.set lo (v % 256)).set hi ((v >>> 8) % 256)⟩, ?_, ?_, ?_, ?_⟩
  · simp [Registers.set_register_word, Registers.set_register, hlen, hlo, hhi]
  · have hsum : v % 256 + ((v >>> 8) % 256) <<< 8 = v := by
      rw [hdiv, Nat.shiftLeft_eq]
      have h2 : (2 : Nat) ^ 8 = 256 := by norm_num
      rw [h2]
      omega
    simp [Registers.get_register_word, Registers.get_register, e1, e2, hsum]
  · rw [and_255_eq_mod]; exact e1
  · rw [and_255_eq_mod]; exact e2

/-- C9 witness: writing 0x1234 to the BC pair (indices 2, 3) of the fresh
register file succeeds, reads back as 0x1234, and stores 0x34 at index 2 and
0x12 at index 3. -/
theorem c9_register_pair_roundtrip_little_endian_witness :
    ∃ r2 : Registers,
      Registers.new.set_register_word (2, 3) 0x1234 = Except.ok r2 ∧
      r2.get_register_word (2, 3) = Except.ok 0x1234 ∧
      r2.registers[2]? = some (0x1234 &&& 0xFF) ∧
      r2.registers[3]? = some ((0x1234 >>> 8) &&& 0xFF) :=
  c9_register_pair_roundtrip_little_endian Registers.new 2 3 0x1234 rfl
    (by norm_num) (by norm_num) (by norm_num) (by norm_num)

/-- C10: with the program counter at 0xFFFF, fetching a 16-bit operand reads
memory index pc + 1 = 0x10000, outside the 65536-byte memory array: the operand
address does not wrap to 0x0000, so the access is an out-of-bounds fault, not a
wrapped read. -/
theorem c10_fetch_word_top_of_memory_oob (cpu : Cpu) (hpc : cpu.pc = 0xFFFF)
    (hlen : cpu.ram.memory.length = 0x10000) :
    cpu.fetch_word = Except.error (RtError.indexOutOfBounds 0x10000 0x10000) := by
  obtain ⟨v, hv⟩ : ∃ v, cpu.ram.memory[(0xFFFF : Nat)]? = some v :=
    ⟨_, List.getElem?_eq_getElem (by omega)⟩
  have hnone : cpu.ram.memory[(0x10000 : Nat)]? = none := List.getElem?_eq_none (by omega)
  simp [Cpu.fetch_word, Cpu.fetch_byte, hpc, hv, hnone, hlen]

/-- C10 witness: the fresh machine with pc moved to 0xFFFF faults on
`fetch_word` with index 0x10000 against the 0x10000-byte memory. -/
theorem c10_fetch_word_top_of_memory_oob_witness :
    topPcCpu.fetch_word = Except.error (RtError.indexOutOfBounds 0x10000 0x10000) :=
  c10_fetch_word_top_of_memory_oob topPcCpu rfl (List.length_replicate _ _)

end GbDmg
